import Mathlib

/-!
Verification of the sdkgen HTTP server core (src/http-server.ts): the
protocol-version detector, the per-version request normalizers, the
auxiliary route resolution, the RPC dispatch pipeline with its lifecycle
hooks, and the per-version reply writer, shallowly embedded in Lean.

JavaScript values flowing through the server are modelled by the `Json`
inductive (numbers restricted to integers: every numeric value the
pipeline inspects is integral). Nondeterministic environment inputs
(crypto randomness, clocks, hostname) are injected as parameters. The
external schema codec (src/encode-decode.ts, outside the sources at hand)
is modelled from the spec where its behaviour matters and injected as a
black box where it does not.
-/

namespace SdkgenHttp

/-- A JSON value, as produced by JSON.parse. -/
inductive Json where
  | null
  | bool (b : Bool)
  | num (n : Int)
  | str (s : String)
  | arr (elems : List Json)
  | obj (fields : List (String × Json))

/-- JavaScript truthiness of a JSON value: null, false, 0 and the empty
string are falsy; every array and object is truthy. -/
def truthy : Json → Bool
  | .null => false
  | .bool b => b
  | .num n => n != 0
  | .str s => s != ""
  | .arr _ => true
  | .obj _ => true

/-- The JavaScript expression `a || b` on JSON values. -/
def jsOr (a b : Json) : Json := if truthy a then a else b

/-- Property access `o.k` on a parsed JSON object: the value stored under
`k`, or null when the key is absent (JavaScript undefined; the schema
decoder treats absent and null optional fields alike). -/
def fieldOf (fields : List (String × Json)) (k : String) : Json :=
  match fields.find? (fun p => p.1 == k) with
  | some p => p.2
  | none => .null

/-- Key membership, the JavaScript `k in o` test on an object. -/
def hasField (fields : List (String × Json)) (k : String) : Bool :=
  (fields.find? (fun p => p.1 == k)).isSome

/-- Object spread `\x7b...v\x7d`: an object contributes its own fields, an
array or a string contributes index-keyed entries, and a primitive
contributes nothing. -/
def jsSpread : Json → List (String × Json)
  | .obj fields => fields
  | .arr elems => elems.enum.map (fun p => (toString p.1, p.2))
  | .str s => s.toList.enum.map (fun p => (toString p.1, Json.str (String.mk [p.2])))
  | _ => []

/-- A thrown JavaScript exception as the catch sites observe it: the
optional `type` property carried by sdkgen business errors, the optional
`message` property, and the result of `toString()`. -/
structure JsErr where
  etype : Option String := none
  emessage : Option String := none
  estr : String

/-- The expression `e.type || "Fatal"` of the catch block. -/
def errTypeOf (e : JsErr) : String :=
  match e.etype with
  | some t => if t == "" then "Fatal" else t
  | none => "Fatal"

/-- The expression `e.message || e.toString()` of the catch block. -/
def errMessageOf (e : JsErr) : String :=
  match e.emessage with
  | some m => if m == "" then e.estr else m
  | none => e.estr

/-- An error object carried by a reply: `\x7b type, message \x7d`. -/
structure SdkError where
  type : String
  message : String

/-- The JSON rendering of a reply error object. -/
def errorJson (e : SdkError) : Json :=
  .obj [("type", .str e.type), ("message", .str e.message)]

/-- A ContextReply: at most one of `result` and `error` is meaningful. -/
structure ContextReply where
  result : Option Json := none
  error : Option SdkError := none

/-- The canonical device info of a ContextRequest. Fields other than the
non-null id keep the JSON values the normalizers put there. -/
structure DeviceInfo where
  id : Json
  language : Json
  platform : Json
  timezone : Json
  type : Json
  version : Json

/-- The canonical request every protocol generation normalizes into. -/
structure ContextRequest where
  version : Nat
  id : Json
  args : Json
  name : String
  extra : Json
  headers : Json
  deviceInfo : DeviceInfo

/-- The per-request execution context (host extra-context omitted: it is
opaque to every operation verified here). -/
structure Context where
  ip : String
  request : ContextRequest

/-- identifyRequestVersion (http-server.ts lines 284-293). The raw body
string has already gone through JSON.parse, modelled as
`Except String Json` with the error side carrying the SyntaxError
message. On a parsed object a `version` key is returned verbatim,
otherwise a `requestId` key means 2, otherwise 1. The `in` test on an
array is false for both keys (hence version 1); on a JSON primitive the
`in` operator throws a TypeError. -/
def identifyRequestVersion (parsedBody : Except String Json) : Except JsErr Json :=
  match parsedBody with
  | .error msg => .error { emessage := some msg, estr := "SyntaxError: " ++ msg }
  | .ok (.obj fields) =>
    if hasField fields "version" then .ok (fieldOf fields "version")
    else if hasField fields "requestId" then .ok (.num 2)
    else .ok (.num 1)
  | .ok (.arr _) => .ok (.num 1)
  | .ok _ =>
    .error { emessage := some "Cannot use in operator on a non-object",
             estr := "TypeError: Cannot use in operator on a non-object" }

/-- The decoding error raised by the external schema codec on a schema
violation (its exact message is not load-bearing for any claim). -/
def decodeFail : JsErr :=
  { emessage := some "Invalid type at decode",
    estr := "Error: Invalid type at decode" }

/-- Modelled from the spec: the external schema codec decode
(src/encode-decode.ts is not among the sources) applied to a `"string"`
schema entry: a JSON string passes through unchanged, anything else fails
with a decoding error. -/
def decodeString (j : Json) : Except JsErr String :=
  match j with
  | .str s => .ok s
  | _ => .error decodeFail

/-- Modelled from the spec: decode applied to a `"string?"` schema entry:
null (or an absent field) yields null, a string passes through, anything
else fails with a decoding error. -/
def decodeOptString (j : Json) : Except JsErr Json :=
  match j with
  | .null => .ok .null
  | .str s => .ok (.str s)
  | _ => .error decodeFail

/-- The decoded V1 `device` sub-record: every field optional, `platform`
of schema `"any?"` kept verbatim. -/
structure DeviceV1 where
  id : Json
  type : Json
  platform : Json
  version : Json
  language : Json
  timezone : Json

/-- The decoded V1 request record. -/
structure ParsedV1 where
  id : String
  args : Json
  name : String
  device : DeviceV1

/-- Modelled from the spec: decode applied to the fixed V1 request schema
(http-server.ts lines 297-311): required string `id` and `name`, `args`
of schema `"any"` verbatim, and a required `device` object of optional
fields. -/
def decodeV1 (body : Json) : Except JsErr ParsedV1 :=
  match body with
  | .obj fields =>
    match fieldOf fields "device" with
    | .obj dfields => do
      let id ← decodeString (fieldOf fields "id")
      let name ← decodeString (fieldOf fields "name")
      let did ← decodeOptString (fieldOf dfields "id")
      let dtype ← decodeOptString (fieldOf dfields "type")
      let dversion ← decodeOptString (fieldOf dfields "version")
      let dlanguage ← decodeOptString (fieldOf dfields "language")
      let dtimezone ← decodeOptString (fieldOf dfields "timezone")
      .ok { id, args := fieldOf fields "args", name,
            device := { id := did, type := dtype,
                        platform := fieldOf dfields "platform",
                        version := dversion, language := dlanguage,
                        timezone := dtimezone } }
    | _ => .error decodeFail
  | _ => .error decodeFail

/-- parseRequestV1 (http-server.ts lines 296-329): the old sdkgen format.
Device id falls back (by truthiness) to the request id; device type falls
back to the device platform and then to the empty string. -/
def parseRequestV1 (headers : Json) (body : Json) : Except JsErr ContextRequest := do
  let parsed ← decodeV1 body
  .ok { version := 1,
        id := .str parsed.id,
        args := parsed.args,
        name := parsed.name,
        extra := .obj [],
        headers := headers,
        deviceInfo := {
          id := jsOr parsed.device.id (.str parsed.id),
          language := parsed.device.language,
          platform := parsed.device.platform,
          timezone := parsed.device.timezone,
          type := jsOr parsed.device.type (jsOr parsed.device.platform (.str "")),
          version := parsed.device.version } }

/-- The decoded V2 `info` sub-record. -/
structure InfoV2 where
  type : String
  browserUserAgent : Json
  language : String

/-- The decoded V2 request record. -/
structure ParsedV2 where
  requestId : String
  deviceId : String
  sessionId : Json
  partnerId : Json
  args : Json
  name : String
  info : InfoV2

/-- Modelled from the spec: decode applied to the fixed V2 request schema
(http-server.ts lines 333-347). -/
def decodeV2 (body : Json) : Except JsErr ParsedV2 :=
  match body with
  | .obj fields =>
    match fieldOf fields "info" with
    | .obj ifields => do
      let requestId ← decodeString (fieldOf fields "requestId")
      let deviceId ← decodeString (fieldOf fields "deviceId")
      let sessionId ← decodeOptString (fieldOf fields "sessionId")
      let partnerId ← decodeOptString (fieldOf fields "partnerId")
      let name ← decodeString (fieldOf fields "name")
      let itype ← decodeString (fieldOf ifields "type")
      let ibua ← decodeOptString (fieldOf ifields "browserUserAgent")
      let ilanguage ← decodeString (fieldOf ifields "language")
      .ok { requestId, deviceId, sessionId, partnerId,
            args := fieldOf fields "args", name,
            info := { type := itype, browserUserAgent := ibua,
                      language := ilanguage } }
    | _ => .error decodeFail
  | _ => .error decodeFail

/-- parseRequestV2 (http-server.ts lines 332-370): the intermediate
format. -/
def parseRequestV2 (headers : Json) (body : Json) : Except JsErr ContextRequest := do
  let parsed ← decodeV2 body
  .ok { version := 2,
        id := .str parsed.requestId,
        args := parsed.args,
        name := parsed.name,
        extra := .obj [("sessionId", parsed.sessionId),
                       ("partnerId", parsed.partnerId)],
        headers := headers,
        deviceInfo := {
          id := .str parsed.deviceId,
          language := .str parsed.info.language,
          platform := .obj [("browserUserAgent",
                             jsOr parsed.info.browserUserAgent .null)],
          timezone := .null,
          type := .str parsed.info.type,
          version := .str "" } }

/-- The decoded V3 `deviceInfo` sub-record: every field optional. -/
structure DeviceV3 where
  id : Json
  type : Json
  browserUserAgent : Json
  timezone : Json
  version : Json
  language : Json

/-- The decoded V3 request record. -/
structure ParsedV3 where
  requestId : Json
  name : String
  args : Json
  extra : Json
  deviceInfo : Option DeviceV3

/-- Modelled from the spec: decode applied to the fixed V3 request schema
(http-server.ts lines 374-390): optional string `requestId`, required
string `name`, `args` of schema `"any"` and `extra` of schema `"any?"`
verbatim, optional `deviceInfo` object of optional fields. -/
def decodeV3 (body : Json) : Except JsErr ParsedV3 :=
  match body with
  | .obj fields => do
    let requestId ← decodeOptString (fieldOf fields "requestId")
    let name ← decodeString (fieldOf fields "name")
    let dinfo ←
      match fieldOf fields "deviceInfo" with
      | .null => Except.ok none
      | .obj dfields => do
        let did ← decodeOptString (fieldOf dfields "id")
        let dtype ← decodeOptString (fieldOf dfields "type")
        let dbua ← decodeOptString (fieldOf dfields "browserUserAgent")
        let dtimezone ← decodeOptString (fieldOf dfields "timezone")
        let dversion ← decodeOptString (fieldOf dfields "version")
        let dlanguage ← decodeOptString (fieldOf dfields "language")
        Except.ok (some { id := did, type := dtype, browserUserAgent := dbua,
                          timezone := dtimezone, version := dversion,
                          language := dlanguage })
      | _ => Except.error decodeFail
    .ok { requestId, name, args := fieldOf fields "args",
          extra := fieldOf fields "extra", deviceInfo := dinfo }
  | _ => .error decodeFail

/-- The empty object a missing V3 `deviceInfo` falls back to
(`parsed.deviceInfo || \x7b\x7d`): every property access on it yields
undefined, here null. -/
def emptyDeviceV3 : DeviceV3 :=
  { id := .null, type := .null, browserUserAgent := .null,
    timezone := .null, version := .null, language := .null }

/-- parseRequestV3 (http-server.ts lines 373-414): the current format.
Each call of `randomBytes(16).toString("hex")` is modelled by drawing the
next token from an injected supply; the request-id draw, when taken,
happens before the device-id draw, matching the evaluation order of the
object literal. Returns the canonical request together with the next
unconsumed supply index. -/
def parseRequestV3 (supply : Nat → String) (c : Nat) (headers : Json)
    (body : Json) : Except JsErr (ContextRequest × Nat) := do
  let parsed ← decodeV3 body
  let d := parsed.deviceInfo.getD emptyDeviceV3
  let idDraw : Json × Nat :=
    if truthy parsed.requestId then (parsed.requestId, c)
    else (Json.str (supply c), c + 1)
  let devIdDraw : Json × Nat :=
    if truthy d.id then (d.id, idDraw.2)
    else (Json.str (supply idDraw.2), idDraw.2 + 1)
  .ok ({ version := 3,
         id := idDraw.1,
         args := parsed.args,
         name := parsed.name,
         extra := if truthy parsed.extra then Json.obj (jsSpread parsed.extra)
                  else Json.obj [],
         headers := headers,
         deviceInfo := {
           id := devIdDraw.1,
           language := jsOr d.language .null,
           platform := .obj [("browserUserAgent", jsOr d.browserUserAgent .null)],
           timezone := jsOr d.timezone .null,
           type := jsOr d.type (.str "api"),
           version := jsOr d.version .null } }, devIdDraw.2)

/-- parseRequest (http-server.ts lines 271-282): dispatch on the detected
version with strict (===) comparison against the numbers 1, 2 and 3;
anything else throws "Failed to understand request". The TypeScript
return type is `ContextRequest | null`, modelled by the `Option`; every
successful branch in fact returns a request (see C5 below). -/
def parseRequest (supply : Nat → String) (c : Nat) (headers : Json)
    (parsedBody : Except String Json) : Except JsErr (Option ContextRequest × Nat) := do
  let v ← identifyRequestVersion parsedBody
  let body ←
    match parsedBody with
    | .ok b => Except.ok b
    | .error msg =>
      Except.error { emessage := some msg, estr := "SyntaxError: " ++ msg }
  match v with
  | .num 1 => do
    let r ← parseRequestV1 headers body
    .ok (some r, c)
  | .num 2 => do
    let r ← parseRequestV2 headers body
    .ok (some r, c)
  | .num 3 => do
    let p ← parseRequestV3 supply c headers body
    .ok (some p.1, p.2)
  | _ =>
    .error { emessage := some "Failed to understand request",
             estr := "Error: Failed to understand request" }

/-- An auxiliary route matcher: a literal path string, or a regular
expression represented extensionally by the two observations
findBestHandler makes of it on a given path — the index of the first
match (`String.prototype.search`, none when there is no match) paired
with the length of the matched substring (`path.match(re)[0].length`). -/
inductive Matcher where
  | str (s : String)
  | regex (m : String → Option (Nat × Nat))

/-- A registered auxiliary route entry; the handler callback itself is
opaque and represented by a numeric tag. -/
structure Handler where
  method : String
  matcher : Matcher
  tag : Nat

/-- The matcher filter of findBestHandler: a string matcher must equal
the path exactly; a regex matcher must satisfy `path.search(m) === 0`,
i.e. its first match must start at index 0. -/
def matcherAccepts (path : String) : Matcher → Bool
  | .str s => s == path
  | .regex m =>
    match m path with
    | some p => p.1 == 0
    | none => false

/-- The length of `path.match(m)[0]`; only consulted by the comparator on
filtered candidates, where a match is guaranteed to exist. -/
def matchLen (path : String) : Matcher → Nat
  | .str _ => 0
  | .regex m =>
    match m path with
    | some p => p.2
    | none => 0

/-- The comparator handed to Array.prototype.sort (http-server.ts lines
114-125): two strings tie, a string sorts before a regex, and two regexes
compare by descending matched length. -/
def matcherCmp (path : String) (a b : Matcher) : Int :=
  match a, b with
  | .str _, .str _ => 0
  | .str _, .regex _ => -1
  | .regex _, .str _ => 1
  | .regex m1, .regex m2 =>
    (matchLen path (.regex m2) : Int) - (matchLen path (.regex m1) : Int)

/-- The ordering induced by the comparator: a sorts no later than b. -/
def handlerLE (path : String) (a b : Handler) : Prop :=
  matcherCmp path a.matcher b.matcher ≤ 0

instance handlerLEDecidable (path : String) : DecidableRel (handlerLE path) :=
  fun a b => inferInstanceAs (Decidable (matcherCmp path a.matcher b.matcher ≤ 0))

theorem matcherCmp_total (path : String) (a b : Matcher) :
    matcherCmp path a b ≤ 0 ∨ matcherCmp path b a ≤ 0 := by
  cases a <;> cases b <;> simp [matcherCmp] <;> omega

theorem matcherCmp_trans (path : String) (a b c : Matcher)
    (hab : matcherCmp path a b ≤ 0) (hbc : matcherCmp path b c ≤ 0) :
    matcherCmp path a c ≤ 0 := by
  cases a <;> cases b <;> cases c <;> simp_all [matcherCmp] <;> omega

instance handlerLETotal (path : String) : IsTotal Handler (handlerLE path) where
  total a b := matcherCmp_total path a.matcher b.matcher

instance handlerLETrans (path : String) : IsTrans Handler (handlerLE path) where
  trans a b c hab hbc := matcherCmp_trans path a.matcher b.matcher c.matcher hab hbc

/-- The double filter of findBestHandler: entries of the same method whose
matcher accepts the path. -/
def candidatesFor (handlers : List Handler) (path method : String) : List Handler :=
  (handlers.filter (fun h => h.method == method)).filter
    (fun h => matcherAccepts path h.matcher)

/-- findBestHandler (http-server.ts lines 105-127): filter by method,
filter by matcher acceptance, sort with the comparator and take the first
entry, or none. Array.prototype.sort with a consistent comparator
produces the stable sorted permutation, realized here by insertion
sort. -/
def findBestHandler (handlers : List Handler) (path method : String) : Option Handler :=
  (List.insertionSort (handlerLE path) (candidatesFor handlers path method)).head?

/-- One emitted access-log line, kept structurally: the request id, the
formatted duration, the function name and the outcome tag (the error type
or "OK"). -/
structure LogEntry where
  id : Json
  durationStr : String
  fn : String
  outcome : String

/-- The observable outcome of writing a reply: the HTTP status code, the
JSON body written (none when nothing was written), whether the response
was ended, and the access-log line if one was emitted. -/
structure WriteResult where
  status : Nat
  body : Option Json
  ended : Bool
  log : Option LogEntry

/-- Environment inputs of writeReply: the hostname and the elapsed
duration measured by `process.hrtime`, as the JSON number placed in the
body and as the 6-decimal string placed in the log line. -/
structure Env where
  host : String
  duration : Json
  durationStr : String

/-- The expression `reply.result || null` of the reply bodies: a falsy
result value is replaced by null. -/
def resultOrNull (r : Option Json) : Json :=
  match r with
  | some j => jsOr j .null
  | none => .null

/-- The expression `reply.error || null` (an error object is always
truthy). -/
def errorOrNull (e : Option SdkError) : Json :=
  match e with
  | some err => errorJson err
  | none => .null

/-- The status rule of the V1 and V3 branches:
`error ? (error.type === "Fatal" ? 500 : 400) : 200`. -/
def statusFor (e : Option SdkError) : Nat :=
  match e with
  | some err => if err.type == "Fatal" then 500 else 400
  | none => 200

/-- writeReply (http-server.ts lines 416-473). Without a context: a reply
lacking an error is replaced by the Fatal "Response without context"
error, the status is 500, the body holds only the error object and no log
line is emitted. With a context: the log line is emitted first, then the
switch on the protocol version writes the V1 body, the empty V2 reply, or
the V3 body; on any other version the switch falls through and nothing is
written (the response is left open). -/
def writeReply (env : Env) (ctx : Option Context) (reply : ContextReply) : WriteResult :=
  match ctx with
  | none =>
    let err :=
      match reply.error with
      | some e => e
      | none => { type := "Fatal", message := "Response without context" }
    { status := 500, body := some (.obj [("error", errorJson err)]),
      ended := true, log := none }
  | some ctx =>
    let entry : LogEntry :=
      { id := ctx.request.id, durationStr := env.durationStr,
        fn := ctx.request.name,
        outcome := match reply.error with | some e => e.type | none => "OK" }
    if ctx.request.version = 1 then
      { status := statusFor reply.error,
        body := some (.obj [("id", ctx.request.id),
          ("ok", .bool reply.error.isNone),
          ("deviceId", ctx.request.deviceInfo.id),
          ("duration", env.duration),
          ("host", .str env.host),
          ("result", resultOrNull reply.result),
          ("error", errorOrNull reply.error)]),
        ended := true, log := some entry }
    else if ctx.request.version = 2 then
      { status := 200, body := none, ended := true, log := some entry }
    else if ctx.request.version = 3 then
      { status := statusFor reply.error,
        body := some (.obj [("duration", env.duration),
          ("host", .str env.host),
          ("result", resultOrNull reply.result),
          ("error", errorOrNull reply.error)]),
        ended := true, log := some entry }
    else
      { status := 200, body := none, ended := false, log := some entry }

/-- A function table entry of astJson.functionTable: the argument and
return type descriptors handed to the external codec. -/
structure FuncDesc where
  args : Json
  ret : Json

/-- The host-supplied configuration the dispatch pipeline consults: the
type table and function table, the implementation map, the two lifecycle
hooks, and the external codec (decode and encode), all injected as black
boxes. A hook returning none models a null or undefined return. -/
structure ApiConfig where
  typeTable : Json
  functionTable : String → Option FuncDesc
  fn : String → Option (Context → Json → Except JsErr Json)
  onRequestStart : Context → Option ContextReply
  onRequestEnd : Context → ContextReply → Option ContextReply
  decodeF : Json → String → Json → Json → Except JsErr Json
  encodeF : Json → String → Json → Json → Except JsErr Json

/-- The exception-to-reply conversion of the catch block (http-server.ts
lines 258-265). -/
def exceptionReply (e : JsErr) : ContextReply :=
  { result := none,
    error := some { type := errTypeOf e, message := errMessageOf e } }

/-- The try block of http-server.ts lines 249-265: the onRequestStart
short-circuit, otherwise decode the arguments, run the implementation and
encode the result into a success reply; any raised error becomes an error
reply. -/
def runCall (cfg : ApiConfig) (ctx : Context) (d : FuncDesc)
    (impl : Context → Json → Except JsErr Json) : ContextReply :=
  match cfg.onRequestStart ctx with
  | some reply => reply
  | none =>
    match cfg.decodeF cfg.typeTable (ctx.request.name ++ ".args") d.args ctx.request.args with
    | .error e => exceptionReply e
    | .ok args =>
      match impl ctx args with
      | .error e => exceptionReply e
      | .ok ret =>
        match cfg.encodeF cfg.typeTable (ctx.request.name ++ ".ret") d.ret ret with
        | .error e => exceptionReply e
        | .ok encoded => { result := some encoded, error := none }

/-- http-server.ts lines 230-268: context construction, lookup of the
function description and implementation (either missing is the Fatal
"Function does not exist" error, written with context), the call, the
onRequestEnd override (`await onRequestEnd(ctx, reply) || reply`) and the
final write. -/
def handleParsed (cfg : ApiConfig) (env : Env) (ip : String)
    (request : ContextRequest) : WriteResult :=
  let ctx : Context := { ip, request }
  match cfg.functionTable request.name, cfg.fn request.name with
  | some d, some impl =>
    let reply := runCall cfg ctx d impl
    writeReply env (some ctx) ((cfg.onRequestEnd ctx reply).getD reply)
  | _, _ =>
    writeReply env (some ctx)
      { error := some { type := "Fatal",
                        message := "Function does not exist: " ++ request.name } }

/-- The POST tail of handleRequestWithBody (http-server.ts lines 202-268)
together with the enclosing rejection handler (lines 157-162): a missing
or empty client IP is written without context, a parse exception
propagates to the catch and is written without context as a Fatal error
carrying the exception string, the (dead) null-request branch is kept
faithfully, and otherwise the parsed request is dispatched. -/
def handlePost (cfg : ApiConfig) (env : Env) (supply : Nat → String) (c : Nat)
    (clientIp : Option String) (headers : Json)
    (parsedBody : Except String Json) : WriteResult :=
  match clientIp with
  | none =>
    writeReply env none
      { error := some { type := "Fatal",
                        message := "Couldn\x27t determine client IP" } }
  | some ip =>
    if ip == "" then
      writeReply env none
        { error := some { type := "Fatal",
                          message := "Couldn\x27t determine client IP" } }
    else
      match parseRequest supply c headers parsedBody with
      | .error e =>
        writeReply env none
          { error := some { type := "Fatal", message := e.estr } }
      | .ok (none, _) =>
        writeReply env none
          { error := some { type := "Fatal",
                            message := "Couldn\x27t parse request" } }
      | .ok (some request, _) => handleParsed cfg env ip request

/-- Hexadecimal rendering of a natural number, 32 characters, zero
padded: a concrete deterministic stand-in for
randomBytes(16).toString("hex") used by the witnesses below. -/
def hexSupply (n : Nat) : String :=
  let ds := Nat.toDigits 16 n
  String.mk (List.replicate (32 - ds.length) '0' ++ ds)

/-- A lowercase hexadecimal character. -/
def isHexDigit (ch : Char) : Bool :=
  "0123456789abcdef".toList.contains ch

/-- 32 lowercase hexadecimal characters: the shape of every token
randomBytes(16).toString("hex") produces. -/
def isHex32 (s : String) : Bool :=
  s.length == 32 && s.toList.all isHexDigit

/-! Concrete fixtures shared by witnesses and counterexamples. -/

/-- A concrete environment. -/
def envEx : Env := { host := "box", duration := .num 7, durationStr := "7.000000" }

/-- A concrete canonical device info. -/
def devEx : DeviceInfo :=
  { id := .str "dev1", language := .null, platform := .null,
    timezone := .null, type := .str "api", version := .null }

/-- A concrete canonical request of the given protocol version. -/
def reqEx (v : Nat) : ContextRequest :=
  { version := v, id := .str "rid", args := .null, name := "fn",
    extra := .obj [], headers := .obj [], deviceInfo := devEx }

/-- C1 counterexample: the body `null` is valid JSON and has neither a
"version" nor a "requestId" field, so the claim as stated says it is
detected as version 1; instead the `in` membership test throws a
TypeError and the whole parse fails with that error. -/
theorem c1_counterexample :
    identifyRequestVersion (.ok Json.null) ≠ .ok (Json.num 1) ∧
    identifyRequestVersion (.ok Json.null)
      = .error { emessage := some "Cannot use in operator on a non-object",
                 estr := "TypeError: Cannot use in operator on a non-object" } ∧
    parseRequest hexSupply 0 (Json.obj []) (.ok Json.null)
      = .error { emessage := some "Cannot use in operator on a non-object",
                 estr := "TypeError: Cannot use in operator on a non-object" } := by
  refine ⟨?_, rfl, rfl⟩
  simp [identifyRequestVersion]

/-- C1 (amended): for every POST body whose JSON parse yields an object,
a present "version" field is used verbatim as the version, otherwise a
present "requestId" field means version 2, otherwise version 1; an array
body has neither key and is likewise detected as version 1; in
particular a body with "version" equal to 3 is dispatched to the V3
parser even when it also carries a "requestId" field. (A primitive JSON
body — null, boolean, number or string — instead raises a TypeError: see
the counterexample.) -/
theorem c1_version_detection (fields : List (String × Json)) (elems : List Json) :
    (hasField fields "version" = true →
      identifyRequestVersion (.ok (.obj fields)) = .ok (fieldOf fields "version")) ∧
    (hasField fields "version" = false → hasField fields "requestId" = true →
      identifyRequestVersion (.ok (.obj fields)) = .ok (.num 2)) ∧
    (hasField fields "version" = false → hasField fields "requestId" = false →
      identifyRequestVersion (.ok (.obj fields)) = .ok (.num 1)) ∧
    identifyRequestVersion (.ok (.arr elems)) = .ok (.num 1) ∧
    (∀ (supply : Nat → String) (c : Nat) (hdr : Json),
      hasField fields "version" = true → fieldOf fields "version" = .num 3 →
      parseRequest supply c hdr (.ok (.obj fields))
        = match parseRequestV3 supply c hdr (.obj fields) with
          | .ok p => .ok (some p.1, p.2)
          | .error e => .error e) := by
  refine ⟨?_, ?_, ?_, rfl, ?_⟩
  · intro h; simp [identifyRequestVersion, h]
  · intro h1 h2; simp [identifyRequestVersion, h1, h2]
  · intro h1 h2; simp [identifyRequestVersion, h1, h2]
  · intro supply c hdr h1 h3
    simp only [parseRequest, identifyRequestVersion, h1, if_true, h3]
    cases hp : parseRequestV3 supply c hdr (.obj fields) <;>
      simp [bind, Except.bind, hp]

/-- C1 witness: a body carrying both "version": 3 and "requestId" is
dispatched to the V3 parser. -/
theorem c1_witness :
    identifyRequestVersion
        (.ok (.obj [("version", .num 3), ("requestId", .str "abc")]))
      = .ok (.num 3) ∧
    parseRequest hexSupply 0 (Json.obj [])
        (.ok (.obj [("version", .num 3), ("requestId", .str "abc"),
                    ("name", .str "fn"), ("args", .null)]))
      = match parseRequestV3 hexSupply 0 (Json.obj [])
              (.obj [("version", .num 3), ("requestId", .str "abc"),
                     ("name", .str "fn"), ("args", .null)]) with
        | .ok p => .ok (some p.1, p.2)
        | .error e => .error e := by
  constructor
  · have h := (c1_version_detection
      [("version", .num 3), ("requestId", .str "abc")] []).1 (by rfl)
    simpa using h
  · exact (c1_version_detection
      [("version", .num 3), ("requestId", .str "abc"),
       ("name", .str "fn"), ("args", .null)] []).2.2.2.2
      hexSupply 0 (Json.obj []) (by rfl) (by rfl)

/-- C4: a context-bearing reply of a V1 or V3 request maps a Fatal error
to status 500, any other error kind to 400, and success to 200. -/
theorem c4_status_codes (env : Env) (ctx : Context) (reply : ContextReply)
    (hv : ctx.request.version = 1 ∨ ctx.request.version = 3) :
    (writeReply env (some ctx) reply).status =
      match reply.error with
      | some e => if e.type = "Fatal" then 500 else 400
      | none => 200 := by
  obtain ⟨r, e⟩ := reply
  rcases hv with hv | hv <;> cases e <;>
    simp [writeReply, hv, statusFor]

/-- C4 witness: a Fatal error on a V1 request is written with status
500. -/
theorem c4_witness :
    (writeReply envEx (some { ip := "1.1.1.1", request := reqEx 1 })
      { error := some { type := "Fatal", message := "boom" } }).status = 500 := by
  have h := c4_status_codes envEx { ip := "1.1.1.1", request := reqEx 1 }
    { error := some { type := "Fatal", message := "boom" } } (Or.inl rfl)
  simpa using h

/-- C7: every reply written for a V2 request, success or error of any
kind, has an empty body and the default status 200. -/
theorem c7_v2_reply (env : Env) (ctx : Context) (reply : ContextReply)
    (hv : ctx.request.version = 2) :
    (writeReply env (some ctx) reply).status = 200 ∧
    (writeReply env (some ctx) reply).body = none := by
  constructor <;> simp [writeReply, hv]

/-- C7 witness: even a Fatal error on a V2 request is written as an empty
200 reply. -/
theorem c7_witness :
    (writeReply envEx (some { ip := "1.1.1.1", request := reqEx 2 })
      { error := some { type := "Fatal", message := "boom" } }).status = 200 ∧
    (writeReply envEx (some { ip := "1.1.1.1", request := reqEx 2 })
      { error := some { type := "Fatal", message := "boom" } }).body = none :=
  c7_v2_reply envEx { ip := "1.1.1.1", request := reqEx 2 }
    { error := some { type := "Fatal", message := "boom" } } rfl

/-- The canonical request the V3 normalizer produces for a body with
only name, args and possibly extra: both identifiers freshly drawn from
the supply starting at index c, device type "api", every other device
field null. An expected-value abbreviation for the theorems below. -/
def freshV3 (supply : Nat → String) (c : Nat) (hdr : Json) (nm : String)
    (a e : Json) : ContextRequest :=
  { version := 3, id := .str (supply c), args := a, name := nm,
    extra := e, headers := hdr,
    deviceInfo := { id := .str (supply (c + 1)), language := .null,
                    platform := .obj [("browserUserAgent", .null)],
                    timezone := .null, type := .str "api", version := .null } }

/-- The canonical request the V1 normalizer produces for a body whose
device carries no id: the device id equals the request id. An
expected-value abbreviation for the theorems below. -/
def v1Defaulted (hdr : Json) (pid : String) (a : Json) (nm : String)
    (plat ty : Json) : ContextRequest :=
  { version := 1, id := .str pid, args := a, name := nm,
    extra := .obj [], headers := hdr,
    deviceInfo := { id := .str pid, language := .null, platform := plat,
                    timezone := .null, type := ty, version := .null } }

/-- C2: normalization defaults, spec-modelled decode. For the minimal V3
body (name and args only): the request id and the device id are the next
two fresh random tokens, the device type is "api", language, timezone,
version and browserUserAgent are null, extra is the empty mapping, and
the randomness counter advances by two. When the supply yields 32-hex
tokens the generated id is a 32-character hex string; two successive
calls draw distinct supply indices, so their generated ids differ
whenever the supply does not repeat. A supplied extra object is copied
verbatim. For V1: an absent device id falls back to the request id, and
an absent device type falls back to a truthy device platform and
otherwise to the empty string. -/
theorem c2_normalization_defaults (supply : Nat → String) (c : Nat) (hdr : Json)
    (nm : String) (a : Json) (fs : List (String × Json)) (pid : String) (p : Json) :
    (parseRequestV3 supply c hdr (.obj [("name", .str nm), ("args", a)])
      = .ok (freshV3 supply c hdr nm a (.obj []), c + 2)) ∧
    (isHex32 (supply c) = true →
      ∀ r cc, parseRequestV3 supply c hdr (.obj [("name", .str nm), ("args", a)])
          = .ok (r, cc) →
        ∃ s, r.id = Json.str s ∧ s.length = 32 ∧ isHex32 s = true) ∧
    (supply c ≠ supply (c + 2) →
      ∀ r1 c1 r2 c2,
        parseRequestV3 supply c hdr (.obj [("name", .str nm), ("args", a)])
          = .ok (r1, c1) →
        parseRequestV3 supply c1 hdr (.obj [("name", .str nm), ("args", a)])
          = .ok (r2, c2) →
        r1.id ≠ r2.id) ∧
    (parseRequestV3 supply c hdr
        (.obj [("name", .str nm), ("args", a), ("extra", .obj fs)])
      = .ok (freshV3 supply c hdr nm a (.obj fs), c + 2)) ∧
    (parseRequestV1 hdr (.obj [("id", .str pid), ("args", a), ("name", .str nm),
                               ("device", .obj [])])
      = .ok (v1Defaulted hdr pid a nm .null (.str ""))) ∧
    (truthy p = true →
      parseRequestV1 hdr (.obj [("id", .str pid), ("args", a), ("name", .str nm),
                               ("device", .obj [("platform", p)])])
        = .ok (v1Defaulted hdr pid a nm p p)) := by
  have base : parseRequestV3 supply c hdr (.obj [("name", .str nm), ("args", a)])
      = .ok (freshV3 supply c hdr nm a (.obj []), c + 2) := rfl
  refine ⟨base, ?_, ?_, rfl, rfl, ?_⟩
  · intro hhex r cc h
    rw [base] at h
    simp only [Except.ok.injEq, Prod.mk.injEq] at h
    obtain ⟨hr, -⟩ := h
    subst hr
    refine ⟨supply c, rfl, ?_, hhex⟩
    have h2 := hhex
    simp only [isHex32, Bool.and_eq_true, beq_iff_eq] at h2
    exact h2.1
  · intro hneq r1 c1 r2 c2 h1 h2
    rw [base] at h1
    simp only [Except.ok.injEq, Prod.mk.injEq] at h1
    obtain ⟨hr1, hc1⟩ := h1
    subst hr1
    subst hc1
    have base2 : parseRequestV3 supply (c + 2) hdr
        (.obj [("name", .str nm), ("args", a)])
        = .ok (freshV3 supply (c + 2) hdr nm a (.obj []), c + 4) := rfl
    rw [base2] at h2
    simp only [Except.ok.injEq, Prod.mk.injEq] at h2
    obtain ⟨hr2, -⟩ := h2
    subst hr2
    intro heq
    have heq2 : Json.str (supply c) = Json.str (supply (c + 2)) := heq
    injection heq2 with heq3
    exact hneq heq3
  · intro hp
    have h1 : jsOr p (Json.str "") = p := by simp [jsOr, hp]
    have base3 : parseRequestV1 hdr
        (.obj [("id", .str pid), ("args", a), ("name", .str nm),
               ("device", .obj [("platform", p)])])
        = .ok (v1Defaulted hdr pid a nm p (jsOr p (Json.str ""))) := rfl
    rw [base3, h1]

/-- C2 witness: with the concrete hex supply, the hex-shape and
distinctness hypotheses hold, and a V1 body with device platform "ios"
and no device type normalizes its device type to "ios". -/
theorem c2_witness :
    isHex32 (hexSupply 0) = true ∧
    hexSupply 0 ≠ hexSupply 2 ∧
    truthy (Json.str "ios") = true ∧
    parseRequestV1 (Json.obj [])
        (.obj [("id", .str "r1"), ("args", .null), ("name", .str "fn"),
               ("device", .obj [("platform", .str "ios")])])
      = .ok (v1Defaulted (Json.obj []) "r1" .null "fn" (.str "ios") (.str "ios")) := by
  refine ⟨by decide, by decide, by decide, ?_⟩
  exact (c2_normalization_defaults hexSupply 0 (Json.obj []) "fn" .null [] "r1"
    (Json.str "ios")).2.2.2.2.2 (by decide)


/-- C10: defaults are applied by truthiness, so an empty-string optional
field is indistinguishable from an absent one: a V3 body whose requestId
is the empty string normalizes exactly like one without a requestId (the
id becomes the next fresh token), a V3 device id equal to the empty
string normalizes exactly like an absent device id, and a V1 device id
equal to the empty string falls back to the request id exactly like an
absent one. -/
theorem c10_truthiness_defaults (supply : Nat → String) (c : Nat) (hdr : Json)
    (nm : String) (a : Json) (pid : String) :
    (parseRequestV3 supply c hdr
        (.obj [("requestId", .str ""), ("name", .str nm), ("args", a)])
      = parseRequestV3 supply c hdr (.obj [("name", .str nm), ("args", a)])) ∧
    ((parseRequestV3 supply c hdr
        (.obj [("requestId", .str ""), ("name", .str nm), ("args", a)])).map
        (fun p => p.1.id)
      = .ok (.str (supply c))) ∧
    (parseRequestV3 supply c hdr
        (.obj [("name", .str nm), ("args", a),
               ("deviceInfo", .obj [("id", .str "")])])
      = parseRequestV3 supply c hdr
        (.obj [("name", .str nm), ("args", a), ("deviceInfo", .obj [])])) ∧
    ((parseRequestV3 supply c hdr
        (.obj [("name", .str nm), ("args", a),
               ("deviceInfo", .obj [("id", .str "")])])).map
        (fun p => p.1.deviceInfo.id)
      = .ok (.str (supply (c + 1)))) ∧
    (parseRequestV1 hdr (.obj [("id", .str pid), ("args", a), ("name", .str nm),
                               ("device", .obj [("id", .str "")])])
      = parseRequestV1 hdr (.obj [("id", .str pid), ("args", a),
                                  ("name", .str nm), ("device", .obj [])])) ∧
    ((parseRequestV1 hdr (.obj [("id", .str pid), ("args", a), ("name", .str nm),
                                ("device", .obj [("id", .str "")])])).map
        (fun r => r.deviceInfo.id)
      = .ok (.str pid)) :=
  ⟨rfl, rfl, rfl, rfl, rfl, rfl⟩

/-- A configuration with an empty function table and pass-through codec;
its hooks always decline. -/
def cfgNone : ApiConfig :=
  { typeTable := .obj [], functionTable := fun _ => none, fn := fun _ => none,
    onRequestStart := fun _ => none, onRequestEnd := fun _ _ => none,
    decodeF := fun _ _ _ v => .ok v, encodeF := fun _ _ _ v => .ok v }

/-- C5 counterexample: a POST with an unparsable (non-JSON) body is
written without context with status 500 and only the error object in the
body, but its message is the SyntaxError string thrown by JSON.parse —
not the literal "Couldn\x27t parse request" the claim states (that branch
is dead code: parseRequest throws instead of returning null). -/
theorem c5_counterexample :
    handlePost cfgNone envEx hexSupply 0 (some "1.2.3.4") (Json.obj [])
        (.error "Unexpected token")
      = { status := 500,
          body := some (.obj [("error", .obj [("type", .str "Fatal"),
                  ("message", .str "SyntaxError: Unexpected token")])]),
          ended := true, log := none } ∧
    "SyntaxError: Unexpected token" ≠ "Couldn\x27t parse request" :=
  ⟨rfl, by decide⟩

/-- C5 (amended): whenever parsing the POST body fails — the failure is
an exception propagating to the rejection handler, not a null return —
the server writes a context-less Fatal reply whose message is the
exception string: status 500, a body holding only the error object, and
no access-log line. The "Couldn\x27t parse request" branch is
unreachable: a successful parse always carries a request. -/
theorem c5_parse_failure (cfg : ApiConfig) (env : Env) (supply : Nat → String)
    (c : Nat) (ip : String) (headers : Json) (parsedBody : Except String Json)
    (e : JsErr)
    (hip : ip ≠ "")
    (he : parseRequest supply c headers parsedBody = .error e) :
    handlePost cfg env supply c (some ip) headers parsedBody
      = { status := 500,
          body := some (.obj [("error",
                  errorJson { type := "Fatal", message := e.estr })]),
          ended := true, log := none } ∧
    (handlePost cfg env supply c (some ip) headers parsedBody).log = none ∧
    (∀ pb r, parseRequest supply c headers pb = .ok r → r.1.isSome = true) := by
  have main : handlePost cfg env supply c (some ip) headers parsedBody
      = { status := 500,
          body := some (.obj [("error",
                  errorJson { type := "Fatal", message := e.estr })]),
          ended := true, log := none } := by
    simp [handlePost, hip, he, writeReply]
  refine ⟨main, by rw [main], ?_⟩
  intro pb r h
  unfold parseRequest at h
  cases pb with
  | error msg => simp [identifyRequestVersion, bind, Except.bind] at h
  | ok b =>
    simp only [bind, Except.bind] at h
    repeat' split at h
    all_goals first
      | (cases h; rfl)
      | cases h

/-- C5 witness: a concrete unparsable body goes through the amended
path. -/
theorem c5_witness :
    ("1.2.3.4" : String) ≠ "" ∧
    parseRequest hexSupply 0 (Json.obj []) (.error "bad json")
      = .error { emessage := some "bad json", estr := "SyntaxError: bad json" } ∧
    handlePost cfgNone envEx hexSupply 0 (some "1.2.3.4") (Json.obj [])
        (.error "bad json")
      = { status := 500,
          body := some (.obj [("error",
                  errorJson { type := "Fatal", message := "SyntaxError: bad json" })]),
          ended := true, log := none } := by
  refine ⟨by decide, rfl, ?_⟩
  exact (c5_parse_failure cfgNone envEx hexSupply 0 "1.2.3.4" (Json.obj [])
    (.error "bad json")
    { emessage := some "bad json", estr := "SyntaxError: bad json" }
    (by decide) rfl).1

/-- C6: lifecycle hook semantics. When onRequestStart returns a reply,
that reply stands in place of executing the function: the written outcome
is the same for every argument decoder, every implementation and every
result encoder, and equals the write of the start-hook reply as
overridden by onRequestEnd. In general, when onRequestEnd returns a
reply, that value replaces the reply about to be written, and when it
returns nothing the reply is written unchanged. -/
theorem c6_hooks (cfg : ApiConfig) (env : Env) (ip : String)
    (request : ContextRequest) (d : FuncDesc)
    (impl : Context → Json → Except JsErr Json) (r : ContextReply)
    (hd : cfg.functionTable request.name = some d)
    (hf : cfg.fn request.name = some impl)
    (hs : cfg.onRequestStart { ip, request } = some r) :
    (∀ dF eF impl2,
      handleParsed
          { cfg with
            decodeF := dF, encodeF := eF,
            fn := fun n => if n = request.name then some impl2
                           else cfg.fn n }
          env ip request
        = writeReply env (some { ip, request })
            ((cfg.onRequestEnd { ip, request } r).getD r)) ∧
    (∀ r2, cfg.onRequestEnd { ip, request }
          (runCall cfg { ip, request } d impl) = some r2 →
      handleParsed cfg env ip request
        = writeReply env (some { ip, request }) r2) ∧
    (cfg.onRequestEnd { ip, request }
          (runCall cfg { ip, request } d impl) = none →
      handleParsed cfg env ip request
        = writeReply env (some { ip, request })
            (runCall cfg { ip, request } d impl)) := by
  refine ⟨?_, ?_, ?_⟩
  · intro dF eF impl2
    simp [handleParsed, runCall, hd, hs]
  · intro r2 he
    simp [handleParsed, hd, hf, he]
  · intro he
    simp [handleParsed, hd, hf, he]

/-- A configuration whose start hook short-circuits with a cached
reply. -/
def cfg6 : ApiConfig :=
  { typeTable := .obj [],
    functionTable := fun _ => some { args := .str "t", ret := .str "t" },
    fn := fun _ => some (fun _ _ => .ok (.str "ran")),
    onRequestStart := fun _ => some { result := some (.str "cached") },
    onRequestEnd := fun _ _ => none,
    decodeF := fun _ _ _ v => .ok v, encodeF := fun _ _ _ v => .ok v }

/-- C6 witness: with a start hook returning a cached reply, even a
configuration whose decoder, implementation and encoder all throw writes
the cached reply. -/
theorem c6_witness :
    handleParsed
        { cfg6 with
          decodeF := fun _ _ _ _ => .error decodeFail,
          encodeF := fun _ _ _ _ => .error decodeFail,
          fn := fun n => if n = (reqEx 3).name
                         then some (fun _ _ => .error decodeFail)
                         else cfg6.fn n }
        envEx "9.9.9.9" (reqEx 3)
      = writeReply envEx (some { ip := "9.9.9.9", request := reqEx 3 })
          ((cfg6.onRequestEnd { ip := "9.9.9.9", request := reqEx 3 }
              { result := some (.str "cached") }).getD
            { result := some (.str "cached") }) :=
  (c6_hooks cfg6 envEx "9.9.9.9" (reqEx 3) { args := .str "t", ret := .str "t" }
    (fun _ _ => .ok (.str "ran")) { result := some (.str "cached") }
    rfl rfl rfl).1 _ _ _

/-- C8 (amended): a request naming a function that is absent from the
function table or has no implementation is answered, with context, by the
Fatal reply "Function does not exist: name". For V1 and V3 requests the
status is 500 and the body carries that error (with ok false for V1; the
V3 body has no ok field at all); a V2 request is written as the empty
200 reply of its generation. -/
theorem c8_unknown_function (cfg : ApiConfig) (env : Env) (ip : String)
    (request : ContextRequest)
    (hmiss : cfg.functionTable request.name = none ∨ cfg.fn request.name = none) :
    handleParsed cfg env ip request
      = writeReply env (some { ip, request })
          { error := some { type := "Fatal",
                            message := "Function does not exist: " ++ request.name } } ∧
    (request.version = 1 ∨ request.version = 3 →
      (handleParsed cfg env ip request).status = 500) ∧
    (request.version = 1 →
      (handleParsed cfg env ip request).body
        = some (.obj [("id", request.id), ("ok", .bool false),
            ("deviceId", request.deviceInfo.id), ("duration", env.duration),
            ("host", .str env.host), ("result", .null),
            ("error", errorJson
              { type := "Fatal",
                message := "Function does not exist: " ++ request.name })])) ∧
    (request.version = 3 →
      (handleParsed cfg env ip request).body
        = some (.obj [("duration", env.duration), ("host", .str env.host),
            ("result", .null),
            ("error", errorJson
              { type := "Fatal",
                message := "Function does not exist: " ++ request.name })])) ∧
    (request.version = 2 →
      (handleParsed cfg env ip request).status = 200 ∧
      (handleParsed cfg env ip request).body = none) := by
  have main : handleParsed cfg env ip request
      = writeReply env (some { ip, request })
          { error := some { type := "Fatal",
                            message := "Function does not exist: " ++ request.name } } := by
    rcases hmiss with h | h
    · simp [handleParsed, h]
    · rcases hft : cfg.functionTable request.name with _ | d
      · simp [handleParsed, hft]
      · simp [handleParsed, hft, h]
  refine ⟨main, ?_, ?_, ?_, ?_⟩
  · rintro (hv | hv) <;> simp [main, writeReply, hv, statusFor]
  · intro hv
    simp [main, writeReply, hv, statusFor, resultOrNull, errorOrNull]
  · intro hv
    simp [main, writeReply, hv, statusFor, resultOrNull, errorOrNull]
  · intro hv
    simp [main, writeReply, hv]

/-- C8 counterexample: with an empty function table, an unknown-function
V2 request is answered with status 200 (not 500) and an empty body, and
the V3 error body contains no ok field at all. -/
theorem c8_counterexample :
    (handleParsed cfgNone envEx "1.2.3.4" (reqEx 2)).status = 200 ∧
    (handleParsed cfgNone envEx "1.2.3.4" (reqEx 2)).body = none ∧
    (handleParsed cfgNone envEx "1.2.3.4" (reqEx 3)).body
      = some (.obj [("duration", .num 7), ("host", .str "box"),
          ("result", .null),
          ("error", .obj [("type", .str "Fatal"),
            ("message", .str "Function does not exist: fn")])]) ∧
    hasField [("duration", Json.num 7), ("host", Json.str "box"),
        ("result", Json.null),
        ("error", Json.obj [("type", Json.str "Fatal"),
          ("message", Json.str "Function does not exist: fn")])] "ok" = false :=
  ⟨rfl, rfl, rfl, by decide⟩

/-- C8 witness: an unknown-function V1 request yields status 500. -/
theorem c8_witness :
    (cfgNone.functionTable (reqEx 1).name = none ∨ cfgNone.fn (reqEx 1).name = none) ∧
    (handleParsed cfgNone envEx "1.2.3.4" (reqEx 1)).status = 500 := by
  refine ⟨Or.inl rfl, ?_⟩
  exact (c8_unknown_function cfgNone envEx "1.2.3.4" (reqEx 1) (Or.inl rfl)).2.1
    (Or.inl rfl)

/-- C9 (amended): a successful V1 call whose encoded return value is
truthy is written with status 200, a body whose result field is exactly
the encoded return value, error null and ok true. (A falsy encoded
return value — null, false, 0 or the empty string — is written as null
instead: see the counterexample.) -/
theorem c9_v1_success (cfg : ApiConfig) (env : Env) (ip : String)
    (request : ContextRequest) (d : FuncDesc)
    (impl : Context → Json → Except JsErr Json) (args ret enc : Json)
    (hd : cfg.functionTable request.name = some d)
    (hf : cfg.fn request.name = some impl)
    (hstart : cfg.onRequestStart { ip, request } = none)
    (hdec : cfg.decodeF cfg.typeTable (request.name ++ ".args") d.args
      request.args = .ok args)
    (hrun : impl { ip, request } args = .ok ret)
    (henc : cfg.encodeF cfg.typeTable (request.name ++ ".ret") d.ret ret
      = .ok enc)
    (hend : cfg.onRequestEnd { ip, request } { result := some enc } = none)
    (htruthy : truthy enc = true)
    (hv : request.version = 1) :
    (handleParsed cfg env ip request).status = 200 ∧
    (handleParsed cfg env ip request).body
      = some (.obj [("id", request.id), ("ok", .bool true),
          ("deviceId", request.deviceInfo.id), ("duration", env.duration),
          ("host", .str env.host), ("result", enc), ("error", .null)]) := by
  have hmid : runCall cfg { ip, request } d impl = { result := some enc } := by
    simp [runCall, hstart, hdec, hrun, henc]
  constructor <;>
    simp [handleParsed, hd, hf, hmid, hend, writeReply, hv, statusFor,
      resultOrNull, errorOrNull, jsOr, htruthy]

/-- A configuration mapping every function to an implementation that
returns the string "pong", with a pass-through codec. -/
def cfg9w : ApiConfig :=
  { typeTable := .obj [],
    functionTable := fun _ => some { args := .str "t", ret := .str "t" },
    fn := fun _ => some (fun _ _ => .ok (.str "pong")),
    onRequestStart := fun _ => none, onRequestEnd := fun _ _ => none,
    decodeF := fun _ _ _ v => .ok v, encodeF := fun _ _ _ v => .ok v }

/-- C9 witness: a concrete successful V1 call returning "pong" writes
result "pong", error null, status 200. -/
theorem c9_witness :
    truthy (Json.str "pong") = true ∧
    (handleParsed cfg9w envEx "1.2.3.4" (reqEx 1)).status = 200 ∧
    (handleParsed cfg9w envEx "1.2.3.4" (reqEx 1)).body
      = some (.obj [("id", .str "rid"), ("ok", .bool true),
          ("deviceId", .str "dev1"), ("duration", .num 7),
          ("host", .str "box"), ("result", .str "pong"), ("error", .null)]) := by
  have h := c9_v1_success cfg9w envEx "1.2.3.4" (reqEx 1)
    { args := .str "t", ret := .str "t" } (fun _ _ => .ok (.str "pong"))
    .null (.str "pong") (.str "pong") rfl rfl rfl rfl rfl rfl rfl (by decide) rfl
  exact ⟨by decide, h.1, by simpa using h.2⟩

/-- A configuration like cfg9w whose implementations return the number
0 — a falsy but perfectly legitimate encoded value. -/
def cfg9z : ApiConfig := { cfg9w with fn := fun _ => some (fun _ _ => .ok (.num 0)) }

/-- C9 counterexample: a successful V1 call whose encoded return value is
the number 0 produces the success reply carrying result 0, yet the
written body renders result as null (result || null discards falsy
values), so the body result does not equal the encoded return value. -/
theorem c9_counterexample :
    runCall cfg9z { ip := "1.2.3.4", request := reqEx 1 }
        { args := .str "t", ret := .str "t" } (fun _ _ => .ok (.num 0))
      = { result := some (.num 0) } ∧
    (handleParsed cfg9z envEx "1.2.3.4" (reqEx 1)).body
      = some (.obj [("id", .str "rid"), ("ok", .bool true),
          ("deviceId", .str "dev1"), ("duration", .num 7),
          ("host", .str "box"), ("result", .null), ("error", .null)]) ∧
    Json.null ≠ Json.num 0 :=
  ⟨rfl, rfl, fun h => Json.noConfusion h⟩

/-- C3: route resolution. A handler is a candidate exactly when its
method equals the request method and its matcher accepts the path (exact
string equality, or a pattern match starting at index 0); resolution
returns none exactly when no entry passes both filters; a returned
handler is always a candidate; when any candidate has a literal string
matcher the returned handler has one too; and when the returned handler
has a pattern matcher its matched substring is at least as long as that
of every candidate. -/
theorem c3_route_resolution (handlers : List Handler) (path method : String) :
    (findBestHandler handlers path method = none
      ↔ candidatesFor handlers path method = []) ∧
    (∀ h, h ∈ candidatesFor handlers path method
      ↔ h ∈ handlers ∧ h.method = method ∧ matcherAccepts path h.matcher = true) ∧
    (∀ h, findBestHandler handlers path method = some h →
      h ∈ candidatesFor handlers path method ∧
      (∀ cb ∈ candidatesFor handlers path method,
        (∃ s, cb.matcher = Matcher.str s) → ∃ s, h.matcher = Matcher.str s) ∧
      ((∀ s, h.matcher ≠ Matcher.str s) →
        ∀ cb ∈ candidatesFor handlers path method,
          matchLen path cb.matcher ≤ matchLen path h.matcher)) := by
  have hperm : (List.insertionSort (handlerLE path)
      (candidatesFor handlers path method)).Perm
      (candidatesFor handlers path method) :=
    List.perm_insertionSort _ _
  have hsorted : List.Sorted (handlerLE path)
      (List.insertionSort (handlerLE path) (candidatesFor handlers path method)) :=
    List.sorted_insertionSort _ _
  refine ⟨?_, ?_, ?_⟩
  · rw [findBestHandler, List.head?_eq_none_iff]
    constructor
    · intro hnil
      have h2 := hperm
      rw [hnil] at h2
      exact h2.symm.eq_nil
    · intro hnil
      rw [hnil]
      rfl
  · intro h
    simp only [candidatesFor, List.mem_filter, beq_iff_eq]
    tauto
  · intro h hEq
    rw [findBestHandler] at hEq
    rcases hS : List.insertionSort (handlerLE path)
        (candidatesFor handlers path method) with _ | ⟨a, t⟩
    · rw [hS] at hEq; cases hEq
    · rw [hS] at hEq
      have ha : a = h := by
        simpa using hEq
      subst ha
      have hmem : a ∈ candidatesFor handlers path method := by
        have : a ∈ List.insertionSort (handlerLE path)
            (candidatesFor handlers path method) := by
          rw [hS]; exact List.mem_cons_self a t
        exact hperm.mem_iff.mp this
      have hrel : ∀ b ∈ t, handlerLE path a b := by
        rw [hS] at hsorted
        exact List.rel_of_sorted_cons hsorted
      have hcand : ∀ cb ∈ candidatesFor handlers path method,
          cb = a ∨ handlerLE path a cb := by
        intro cb hcb
        have : cb ∈ List.insertionSort (handlerLE path)
            (candidatesFor handlers path method) := hperm.mem_iff.mpr hcb
        rw [hS] at this
        rcases List.mem_cons.mp this with hh | hh
        · exact Or.inl hh
        · exact Or.inr (hrel cb hh)
      refine ⟨hmem, ?_, ?_⟩
      · rintro cb hcb ⟨s, hcbs⟩
        rcases hcand cb hcb with hh | hh
        · exact ⟨s, hh ▸ hcbs⟩
        · rcases hm : a.matcher with s' | m
          · exact ⟨s', rfl⟩
          · rw [handlerLE, hm, hcbs] at hh
            simp [matcherCmp] at hh
      · intro hnl cb hcb
        rcases hcand cb hcb with hh | hh
        · rw [hh]
        · rcases hcm : cb.matcher with s | m
          · simp [matchLen]
          · rcases hm : a.matcher with s' | m'
            · exact absurd rfl (hm ▸ hnl s')
            · rw [handlerLE, hm, hcm] at hh
              simp only [matcherCmp] at hh
              omega

/-- A literal-path auxiliary route. -/
def hLit : Handler := { method := "GET", matcher := .str "/assets/logo", tag := 0 }

/-- A pattern auxiliary route whose regex first matches "/assets/logo" at
index 0 with a matched substring of length 7. -/
def hPat : Handler :=
  { method := "GET",
    matcher := .regex (fun p => if p = "/assets/logo" then some (0, 7) else none),
    tag := 1 }

/-- C3 witness: with a pattern route registered before a literal route,
both matching the same GET path, resolution picks the literal one. -/
theorem c3_witness :
    findBestHandler [hPat, hLit] "/assets/logo" "GET" = some hLit ∧
    hLit ∈ candidatesFor [hPat, hLit] "/assets/logo" "GET" ∧
    (∃ s, hLit.matcher = Matcher.str s) := by
  have h := (c3_route_resolution [hPat, hLit] "/assets/logo" "GET").2.2 hLit rfl
  exact ⟨rfl, h.1, h.2.1 hLit h.1 ⟨"/assets/logo", rfl⟩⟩

end SdkgenHttp
